import Mathlib

/-!
Shallow embedding of the queue-synchronization engine in
src/venus/vkr_queue.c (virglrenderer, Venus renderer).

The embedding covers the sync-object pool (vkr_device_alloc_queue_sync,
vkr_device_free_queue_sync), the submission gate (vkr_queue_sync_submit),
one iteration of the retirement worker loop (vkr_queue_thread), the drain
path (vkr_queue_retire_all_syncs, vkr_queue_destroy), ring binding inside
vkr_dispatch_vkGetDeviceQueue2, identity assignment
(vkr_queue_assign_object_id) and the vkQueueWaitIdle handler.

Driver behaviour (QueueSubmit, WaitForFences, CreateFence, malloc) is an
oracle: each call site takes the result the driver returns as a parameter,
so theorems quantify over every possible driver timing and outcome.
Mutex-guarded critical sections in the C code are atomic steps here; the
per-queue mutex makes each loop iteration of the worker and each registry
append of the gate atomic with respect to one another, which is exactly
the granularity of the step functions below.
-/

set_option autoImplicit false

namespace VkrQueue

/-- VkResult values relevant to the sync-submission path: VK_SUCCESS,
VK_TIMEOUT, VK_ERROR_DEVICE_LOST, and any other (error) code. -/
inductive VkResult where
  | success
  | timeout
  | errorDeviceLost
  | otherError (code : Int)
deriving DecidableEq, Repr

/-- struct vkr_queue_sync: one pending completion unit. The native VkFence
handle is modelled as a Nat identity so that fence reuse versus recreation
is observable. -/
structure QueueSync where
  fence : Nat
  device_lost : Bool
  flags : Nat
  ring_idx : Nat
  fence_id : Nat
deriving DecidableEq, Repr

/-- The device slice relevant here: the free-sync pool (dev.free_syncs,
guarded in C by free_sync_mutex), plus instrumentation: next_fence is the
next fresh native-fence identity and fence_alloc_count counts CreateFence
calls (pool allocation count). -/
structure DevState where
  free_syncs : List QueueSync
  next_fence : Nat
  fence_alloc_count : Nat
deriving DecidableEq, Repr

/-- vkr_device_alloc_queue_sync. mallocOk and createFenceOk are the oracle
outcomes of malloc and vk->CreateFence. Pool non-empty: pop the head of
dev.free_syncs (list_del of free_syncs.next) and reuse its fence
(vk->ResetFences resets it in place; the fence identity is kept and
fence_alloc_count does not grow). Pool empty: malloc plus CreateFence a
fresh fence outside the pool lock; failure of either returns NULL with the
partially built object freed, so no object escapes and the device state is
unchanged. Both C paths then set device_lost=false, flags, ring_idx,
fence_id. -/
def vkr_device_alloc_queue_sync (dev : DevState) (mallocOk createFenceOk : Bool)
    (fence_flags ring_idx fence_id : Nat) : Option (QueueSync × DevState) :=
  match dev.free_syncs with
  | [] =>
    if mallocOk then
      if createFenceOk then
        some ({ fence := dev.next_fence, device_lost := false, flags := fence_flags,
                ring_idx := ring_idx, fence_id := fence_id },
              { dev with
                next_fence := dev.next_fence + 1
                fence_alloc_count := dev.fence_alloc_count + 1 })
      else
        none
    else
      none
  | sync :: rest =>
    some ({ sync with
            device_lost := false
            flags := fence_flags
            ring_idx := ring_idx
            fence_id := fence_id },
          { dev with free_syncs := rest })

/-- vkr_device_free_queue_sync: list_addtail pushes the sync to the tail of
the free pool. -/
def vkr_device_free_queue_sync (dev : DevState) (sync : QueueSync) : DevState :=
  { dev with free_syncs := dev.free_syncs ++ [sync] }

/-- The queue slice relevant here: the in-flight registry
(queue.pending_syncs, FIFO, guarded in C by queue.mutex), the join flag,
the bound ring index (0 = unbound) and the guest-visible object id
(0 = unassigned). -/
structure QueueState where
  pending_syncs : List QueueSync
  join : Bool
  ring_idx : Nat
  id : Nat
deriving DecidableEq, Repr

/-- Combined observable state of one device and one of its queues.
retired logs every ctx->retire_fence(ctx_id, ring_idx, fence_id) callback
in invocation order; submitted is a ghost log of the (ring_idx, fence_id)
pairs of submissions for which vkr_queue_sync_submit returned true, in
submission order. -/
structure VkrState where
  dev : DevState
  queue : QueueState
  retired : List (Nat × Nat)
  submitted : List (Nat × Nat)
deriving DecidableEq, Repr

/-- The (ring_idx, fence_id) pairs of a list of syncs, in list order. -/
def tokensOf (l : List QueueSync) : List (Nat × Nat) :=
  l.map (fun s => (s.ring_idx, s.fence_id))

/-- vkr_queue_sync_retire: invoke the context completion callback
retire_fence(ctx_id, sync.ring_idx, sync.fence_id), then return the sync
to the device free pool. -/
def vkr_queue_sync_retire (st : VkrState) (sync : QueueSync) : VkrState :=
  { st with
    retired := st.retired ++ [(sync.ring_idx, sync.fence_id)]
    dev := vkr_device_free_queue_sync st.dev sync }

/-- vkr_queue_sync_submit. submitResult is the oracle outcome of
vk->QueueSubmit(queue, 0, NULL, sync->fence) (a fence-only submission).
Alloc failure: return false. VK_ERROR_DEVICE_LOST: mark device_lost=true
and proceed. Any other non-success result: free the sync back to the pool
and return false. On the non-failing paths, list_addtail appends the sync
to the tail of queue.pending_syncs and cnd_signal wakes the worker. -/
def vkr_queue_sync_submit (st : VkrState) (mallocOk createFenceOk : Bool)
    (submitResult : VkResult) (flags ring_idx fence_id : Nat) : Bool × VkrState :=
  match vkr_device_alloc_queue_sync st.dev mallocOk createFenceOk flags ring_idx fence_id with
  | none => (false, st)
  | some (sync, dev) =>
    if submitResult = VkResult.errorDeviceLost then
      let sync := { sync with device_lost := true }
      (true, { st with
               dev := dev
               queue := { st.queue with pending_syncs := st.queue.pending_syncs ++ [sync] }
               submitted := st.submitted ++ [(ring_idx, fence_id)] })
    else if submitResult ≠ VkResult.success then
      (false, { st with dev := vkr_device_free_queue_sync dev sync })
    else
      (true, { st with
               dev := dev
               queue := { st.queue with pending_syncs := st.queue.pending_syncs ++ [sync] }
               submitted := st.submitted ++ [(ring_idx, fence_id)] })

/-- What one iteration of the vkr_queue_thread loop did. -/
inductive WorkerObs where
  | blocked
  | exited
  | timedOut
  | retiredOne (ring_idx fence_id : Nat)
deriving DecidableEq, Repr

/-- The fixed WaitForFences timeout of the retirement worker:
ns_per_sec * 3 nanoseconds (3 seconds). -/
def sync_wait_timeout_ns : Nat := 1000000000 * 3

/-- One iteration of the vkr_queue_thread loop body. waitResult is the
oracle outcome of vk->WaitForFences on the front fence. Registry empty and
no join: cnd_wait (blocked, no change). join set: break out of the loop
(exited). Otherwise inspect, without removing, the front of the registry;
a device_lost sync short-circuits the driver wait (result is
VK_ERROR_DEVICE_LOST with no WaitForFences call), any other sync is waited
on with the fixed 3 second timeout. VK_TIMEOUT: continue, state unchanged.
Any other result: list_del the front and retire it. The middle component
of the result is the timeout passed to WaitForFences, or none when no
driver wait was performed. -/
def vkr_queue_thread_step (st : VkrState) (waitResult : VkResult) :
    WorkerObs × Option Nat × VkrState :=
  match st.queue.pending_syncs with
  | [] =>
    if st.queue.join then (WorkerObs.exited, none, st)
    else (WorkerObs.blocked, none, st)
  | sync :: rest =>
    if st.queue.join then (WorkerObs.exited, none, st)
    else
      let wait : VkResult × Option Nat :=
        if sync.device_lost then (VkResult.errorDeviceLost, none)
        else (waitResult, some sync_wait_timeout_ns)
      if wait.1 = VkResult.timeout then (WorkerObs.timedOut, wait.2, st)
      else
        (WorkerObs.retiredOne sync.ring_idx sync.fence_id, wait.2,
         vkr_queue_sync_retire { st with queue := { st.queue with pending_syncs := rest } } sync)

/-- vkr_queue_retire_all_syncs: set queue->join under the mutex, signal and
join the worker thread (so every outstanding sync is back in the registry),
then retire every remaining sync in registry order. The drain performs no
driver wait. -/
def vkr_queue_retire_all_syncs (st : VkrState) : VkrState :=
  let syncs := st.queue.pending_syncs
  let st1 := { st with queue := { st.queue with
                                  join := true
                                  pending_syncs := [] } }
  syncs.foldl vkr_queue_sync_retire st1

/-- Result of vkr_queue_destroy: the final device/queue state, the
ring-binding table of the context, and whether the queue memory was freed
directly (free(queue)) rather than through vkr_context_remove_object. -/
structure DestroyOut where
  st : VkrState
  sync_queues : List (Option Nat)
  freed_directly : Bool
deriving DecidableEq, Repr

/-- vkr_queue_destroy (caller has already made the device idle): retire all
syncs, clear ctx->sync_queues[queue->ring_idx] when ring_idx > 0, then
free(queue) directly only when queue->base.id is 0, otherwise defer to
vkr_context_remove_object. sync_queues is the ring table of the context,
holding the bound queue identity per slot. -/
def vkr_queue_destroy (sync_queues : List (Option Nat)) (st : VkrState) : DestroyOut :=
  let st1 := vkr_queue_retire_all_syncs st
  let sq := if st1.queue.ring_idx > 0 then sync_queues.set st1.queue.ring_idx none
            else sync_queues
  { st := st1, sync_queues := sq, freed_directly := st1.queue.id = 0 }

/-- vkr_queue_assign_object_id. validate models
vkr_context_validate_object_id; cur is queue->base.id (0 = unassigned).
Returns the decoder fatal flag and the stored id after the call. Already
assigned to the same id: no-op. Already assigned to a different id:
vkr_cs_decoder_set_fatal and the stored id is untouched. Unassigned: the
id is recorded (and the object registered) only when validation accepts
it. -/
def vkr_queue_assign_object_id (validate : Nat → Bool) (fatal : Bool)
    (cur id : Nat) : Bool × Nat :=
  if cur ≠ 0 then
    if cur ≠ id then (true, cur) else (fatal, cur)
  else if validate id then
    (fatal, id)
  else
    (fatal, cur)

/-- The ring-binding slice of the context: ctx->sync_queues (one slot per
ring index, holding the bound queue identity) and the decoder fatal flag. -/
structure BindCtx where
  sync_queues : List (Option Nat)
  fatal : Bool
deriving DecidableEq, Repr

/-- The queue slice seen by ring binding: its identity and its ring_idx. -/
structure BindQueue where
  qid : Nat
  ring_idx : Nat
deriving DecidableEq, Repr

/-- The VkDeviceQueueTimelineInfoMESA branch of
vkr_dispatch_vkGetDeviceQueue2: reject ringIdx 0 or ringIdx at or beyond
ARRAY_SIZE(ctx->sync_queues) as stream-fatal; reject an already occupied
slot as stream-fatal; otherwise record queue->ring_idx and
ctx->sync_queues[ringIdx] = queue. -/
def vkr_dispatch_vkGetDeviceQueue2_bind (ctx : BindCtx) (q : BindQueue)
    (ringIdx : Nat) : BindCtx × BindQueue :=
  if ringIdx = 0 ∨ ringIdx ≥ ctx.sync_queues.length then
    ({ ctx with fatal := true }, q)
  else if (ctx.sync_queues.getD ringIdx none).isSome then
    ({ ctx with fatal := true }, q)
  else
    ({ ctx with sync_queues := ctx.sync_queues.set ringIdx (some q.qid) },
     { q with ring_idx := ringIdx })

/-- vkr_dispatch_vkQueueWaitIdle: the whole body is
vkr_cs_decoder_set_fatal(&ctx->decoder); it makes no driver call. The
result is the decoder fatal flag after the call and the number of driver
entry points invoked by the handler. -/
def vkr_dispatch_vkQueueWaitIdle (fatal : Bool) : Bool × Nat :=
  (let _ := fatal; (true), 0)

/-- One observable event on a queue: a call to vkr_queue_sync_submit with
its driver oracle, or one iteration of the worker loop with its driver
oracle. Interleaving is arbitrary, which covers every relative timing of
submission and completion. -/
inductive Event where
  | submit (mallocOk createFenceOk : Bool) (submitResult : VkResult)
      (flags ring_idx fence_id : Nat)
  | workerStep (waitResult : VkResult)
deriving DecidableEq, Repr

/-- Apply one event to the state. -/
def stepEvent (st : VkrState) (e : Event) : VkrState :=
  match e with
  | Event.submit m c r f ri fid => (vkr_queue_sync_submit st m c r f ri fid).2
  | Event.workerStep w => (vkr_queue_thread_step st w).2.2

/-- Run a list of events left to right. -/
def runEvents (st : VkrState) (events : List Event) : VkrState :=
  events.foldl stepEvent st

/-- A freshly created queue on a device with an empty pool. -/
def initState : VkrState :=
  { dev := { free_syncs := [], next_fence := 0, fence_alloc_count := 0 },
    queue := { pending_syncs := [], join := false, ring_idx := 0, id := 0 },
    retired := [], submitted := [] }

/-- One full submit/retire cycle with a healthy driver: submit succeeds and
the subsequent worker wait succeeds. -/
def submitRetireCycle (st : VkrState) (flags ring_idx fence_id : Nat) : VkrState :=
  (vkr_queue_thread_step
    (vkr_queue_sync_submit st true true VkResult.success flags ring_idx fence_id).2
    VkResult.success).2.2

/-- n sequential submit/retire cycles from a fresh queue, each submission
issued only after the previous object has been retired to the pool. -/
def runCycles : Nat → VkrState
  | 0 => initState
  | n + 1 => submitRetireCycle (runCycles n) 0 0 n

/-! Helper lemmas shared by the claim theorems. -/

theorem tokensOf_append (l1 l2 : List QueueSync) :
    tokensOf (l1 ++ l2) = tokensOf l1 ++ tokensOf l2 := by
  simp [tokensOf]

theorem alloc_some_fields (dev : DevState) (m c : Bool) (f ri fid : Nat)
    (sync : QueueSync) (dev2 : DevState)
    (h : vkr_device_alloc_queue_sync dev m c f ri fid = some (sync, dev2)) :
    sync.ring_idx = ri ∧ sync.fence_id = fid ∧ sync.flags = f ∧
      sync.device_lost = false := by
  unfold vkr_device_alloc_queue_sync at h
  cases hl : dev.free_syncs with
  | nil =>
    rw [hl] at h
    split_ifs at h
    simp_all
    obtain ⟨h1, _⟩ := h
    simp [← h1]
  | cons s rest =>
    rw [hl] at h
    simp at h
    obtain ⟨h1, _⟩ := h
    simp [← h1]

theorem submit_alloc_fail (st : VkrState) (m c : Bool) (r : VkResult) (f ri fid : Nat)
    (h : vkr_device_alloc_queue_sync st.dev m c f ri fid = none) :
    vkr_queue_sync_submit st m c r f ri fid = (false, st) := by
  simp [vkr_queue_sync_submit, h]

theorem submit_device_lost_eq (st : VkrState) (m c : Bool) (f ri fid : Nat)
    (sync : QueueSync) (dev2 : DevState)
    (h : vkr_device_alloc_queue_sync st.dev m c f ri fid = some (sync, dev2)) :
    vkr_queue_sync_submit st m c VkResult.errorDeviceLost f ri fid =
      (true, { st with
               dev := dev2
               queue := { st.queue with
                          pending_syncs :=
                            st.queue.pending_syncs ++ [{ sync with device_lost := true }] }
               submitted := st.submitted ++ [(ri, fid)] }) := by
  simp [vkr_queue_sync_submit, h]

theorem submit_success_eq (st : VkrState) (m c : Bool) (f ri fid : Nat)
    (sync : QueueSync) (dev2 : DevState)
    (h : vkr_device_alloc_queue_sync st.dev m c f ri fid = some (sync, dev2)) :
    vkr_queue_sync_submit st m c VkResult.success f ri fid =
      (true, { st with
               dev := dev2
               queue := { st.queue with
                          pending_syncs := st.queue.pending_syncs ++ [sync] }
               submitted := st.submitted ++ [(ri, fid)] }) := by
  simp [vkr_queue_sync_submit, h]

theorem submit_other_fail_eq (st : VkrState) (m c : Bool) (r : VkResult) (f ri fid : Nat)
    (sync : QueueSync) (dev2 : DevState)
    (hr1 : r ≠ VkResult.success) (hr2 : r ≠ VkResult.errorDeviceLost)
    (h : vkr_device_alloc_queue_sync st.dev m c f ri fid = some (sync, dev2)) :
    vkr_queue_sync_submit st m c r f ri fid =
      (false, { st with dev := vkr_device_free_queue_sync dev2 sync }) := by
  simp [vkr_queue_sync_submit, h, hr1, hr2]

theorem thread_step_join (st : VkrState) (w : VkResult)
    (hj : st.queue.join = true) :
    vkr_queue_thread_step st w = (WorkerObs.exited, none, st) := by
  unfold vkr_queue_thread_step
  cases hp : st.queue.pending_syncs <;> simp [hj]

theorem thread_step_blocked (st : VkrState) (w : VkResult)
    (hp : st.queue.pending_syncs = []) (hj : st.queue.join = false) :
    vkr_queue_thread_step st w = (WorkerObs.blocked, none, st) := by
  unfold vkr_queue_thread_step
  simp [hp, hj]

theorem thread_step_device_lost (st : VkrState) (w : VkResult)
    (sync : QueueSync) (rest : List QueueSync)
    (hp : st.queue.pending_syncs = sync :: rest) (hj : st.queue.join = false)
    (hd : sync.device_lost = true) :
    vkr_queue_thread_step st w =
      (WorkerObs.retiredOne sync.ring_idx sync.fence_id, none,
       { st with
         queue := { st.queue with pending_syncs := rest }
         retired := st.retired ++ [(sync.ring_idx, sync.fence_id)]
         dev := vkr_device_free_queue_sync st.dev sync }) := by
  unfold vkr_queue_thread_step
  simp [hp, hj, hd, vkr_queue_sync_retire]

theorem thread_step_wait_timeout (st : VkrState)
    (sync : QueueSync) (rest : List QueueSync)
    (hp : st.queue.pending_syncs = sync :: rest) (hj : st.queue.join = false)
    (hd : sync.device_lost = false) :
    vkr_queue_thread_step st VkResult.timeout =
      (WorkerObs.timedOut, some sync_wait_timeout_ns, st) := by
  unfold vkr_queue_thread_step
  simp [hp, hj, hd]

theorem thread_step_wait_done (st : VkrState) (w : VkResult)
    (sync : QueueSync) (rest : List QueueSync)
    (hp : st.queue.pending_syncs = sync :: rest) (hj : st.queue.join = false)
    (hd : sync.device_lost = false) (hw : w ≠ VkResult.timeout) :
    vkr_queue_thread_step st w =
      (WorkerObs.retiredOne sync.ring_idx sync.fence_id, some sync_wait_timeout_ns,
       { st with
         queue := { st.queue with pending_syncs := rest }
         retired := st.retired ++ [(sync.ring_idx, sync.fence_id)]
         dev := vkr_device_free_queue_sync st.dev sync }) := by
  unfold vkr_queue_thread_step
  simp [hp, hj, hd, hw, vkr_queue_sync_retire]

/-- The registry/log invariant: the retirement log followed by the tokens
still in flight is exactly the successful-submission log. -/
def SubmitLogInv (st : VkrState) : Prop :=
  st.retired ++ tokensOf st.queue.pending_syncs = st.submitted

theorem stepEvent_submitLogInv (st : VkrState) (e : Event)
    (h : SubmitLogInv st) : SubmitLogInv (stepEvent st e) := by
  unfold SubmitLogInv at h ⊢
  cases e with
  | submit m c r f ri fid =>
    simp only [stepEvent]
    cases halloc : vkr_device_alloc_queue_sync st.dev m c f ri fid with
    | none => rw [submit_alloc_fail st m c r f ri fid halloc]; exact h
    | some p =>
      obtain ⟨sync, dev2⟩ := p
      obtain ⟨hri, hfid, _, _⟩ := alloc_some_fields _ _ _ _ _ _ _ _ halloc
      by_cases hr : r = VkResult.errorDeviceLost
      · rw [hr, submit_device_lost_eq st m c f ri fid sync dev2 halloc]
        simpa [tokensOf_append, tokensOf, hri, hfid, ← List.append_assoc] using h
      · by_cases hs : r = VkResult.success
        · rw [hs, submit_success_eq st m c f ri fid sync dev2 halloc]
          simpa [tokensOf_append, tokensOf, hri, hfid, ← List.append_assoc] using h
        · rw [submit_other_fail_eq st m c r f ri fid sync dev2 hs hr halloc]
          exact h
  | workerStep w =>
    simp only [stepEvent]
    by_cases hj : st.queue.join
    · rw [thread_step_join st w hj]; exact h
    · cases hp : st.queue.pending_syncs with
      | nil =>
        rw [thread_step_blocked st w hp (by simpa using hj)]
        exact h
      | cons sync rest =>
        rw [hp] at h
        by_cases hd : sync.device_lost
        · rw [thread_step_device_lost st w sync rest hp (by simpa using hj) hd]
          simpa [tokensOf, List.append_assoc] using h
        · by_cases hw : w = VkResult.timeout
          · rw [hw, thread_step_wait_timeout st sync rest hp (by simpa using hj)
              (by simpa using hd)]
            simpa [hp] using h
          · rw [thread_step_wait_done st w sync rest hp (by simpa using hj)
              (by simpa using hd) hw]
            simpa [tokensOf, List.append_assoc] using h

theorem runEvents_submitLogInv (st : VkrState) (events : List Event)
    (h : SubmitLogInv st) : SubmitLogInv (runEvents st events) := by
  induction events generalizing st with
  | nil => simpa [runEvents] using h
  | cons e es ih =>
    simp only [runEvents, List.foldl_cons]
    exact ih (stepEvent st e) (stepEvent_submitLogInv st e h)

/-- C1: within one queue, the completion callback fires exactly once per
successfully submitted object and in submission order, regardless of the
interleaving of submissions and worker iterations and of every driver wait
outcome: after any event sequence from a fresh queue, the retirement log
followed by the tokens still in the in-flight registry equals the
successful-submission log. In particular the retirement log is always a
prefix of the submission log. -/
theorem vkr_queue_fifo_order (events : List Event) :
    (runEvents initState events).retired
        ++ tokensOf (runEvents initState events).queue.pending_syncs
      = (runEvents initState events).submitted := by
  have := runEvents_submitLogInv initState events (by simp [SubmitLogInv, initState, tokensOf])
  simpa [SubmitLogInv] using this

/-- C2: a submission for which QueueSubmit reports VK_ERROR_DEVICE_LOST
still returns success: the object is marked device_lost and appended to
the in-flight registry. When the worker later observes a device_lost
object at the front of the registry, it performs no driver wait (the wait
component is none), removes the object, fires the completion callback with
its (ring_idx, fence_id) and returns the object to the pool. -/
theorem vkr_device_lost_path :
    (∀ (st : VkrState) (m c : Bool) (f ri fid : Nat) (sync : QueueSync) (dev2 : DevState),
        vkr_device_alloc_queue_sync st.dev m c f ri fid = some (sync, dev2) →
        vkr_queue_sync_submit st m c VkResult.errorDeviceLost f ri fid =
          (true, { st with
                   dev := dev2
                   queue := { st.queue with
                              pending_syncs :=
                                st.queue.pending_syncs ++ [{ sync with device_lost := true }] }
                   submitted := st.submitted ++ [(ri, fid)] })) ∧
    (∀ (st : VkrState) (w : VkResult) (sync : QueueSync) (rest : List QueueSync),
        st.queue.pending_syncs = sync :: rest → st.queue.join = false →
        sync.device_lost = true →
        vkr_queue_thread_step st w =
          (WorkerObs.retiredOne sync.ring_idx sync.fence_id, none,
           { st with
             queue := { st.queue with pending_syncs := rest }
             retired := st.retired ++ [(sync.ring_idx, sync.fence_id)]
             dev := vkr_device_free_queue_sync st.dev sync })) := by
  constructor
  · exact fun st m c f ri fid sync dev2 h => submit_device_lost_eq st m c f ri fid sync dev2 h
  · exact fun st w sync rest hp hj hd => thread_step_device_lost st w sync rest hp hj hd

/-- Witness for C2 at a concrete submission and a concrete worker state. -/
theorem vkr_device_lost_path_witness :
    (vkr_queue_sync_submit initState true true VkResult.errorDeviceLost 0 2 7).1 = true ∧
    (vkr_queue_sync_submit initState true true
        VkResult.errorDeviceLost 0 2 7).2.queue.pending_syncs =
      [{ fence := 0, device_lost := true, flags := 0, ring_idx := 2, fence_id := 7 }] ∧
    vkr_queue_thread_step
        { dev := { free_syncs := [], next_fence := 1, fence_alloc_count := 1 },
          queue := { pending_syncs :=
                       [{ fence := 0, device_lost := true, flags := 0,
                          ring_idx := 2, fence_id := 7 }],
                     join := false, ring_idx := 0, id := 0 },
          retired := [], submitted := [(2, 7)] } VkResult.timeout =
      (WorkerObs.retiredOne 2 7, none,
       { dev := { free_syncs :=
                    [{ fence := 0, device_lost := true, flags := 0,
                       ring_idx := 2, fence_id := 7 }],
                  next_fence := 1, fence_alloc_count := 1 },
         queue := { pending_syncs := [], join := false, ring_idx := 0, id := 0 },
         retired := [(2, 7)], submitted := [(2, 7)] }) := by
  refine ⟨?_, ?_, ?_⟩
  · rw [vkr_device_lost_path.1 initState true true 0 2 7
      { fence := 0, device_lost := false, flags := 0, ring_idx := 2, fence_id := 7 }
      { free_syncs := [], next_fence := 1, fence_alloc_count := 1 } (by decide)]
  · rw [vkr_device_lost_path.1 initState true true 0 2 7
      { fence := 0, device_lost := false, flags := 0, ring_idx := 2, fence_id := 7 }
      { free_syncs := [], next_fence := 1, fence_alloc_count := 1 } (by decide)]
    decide
  · rw [vkr_device_lost_path.2 _ VkResult.timeout
      { fence := 0, device_lost := true, flags := 0, ring_idx := 2, fence_id := 7 }
      [] rfl rfl rfl]
    decide

/-- C4: acquire pops the pool head and keeps its native fence on a pool
hit (the fence identity is preserved and the allocation count does not
grow); on a pool miss it creates a fresh fence only when both malloc and
CreateFence succeed, and fails with no object escaping when either fails;
every successful path populates flags, ring_idx, fence_id and
device_lost=false. -/
theorem vkr_alloc_queue_sync_spec (dev : DevState) (m c : Bool) (f ri fid : Nat) :
    (∀ (sync : QueueSync) (rest : List QueueSync), dev.free_syncs = sync :: rest →
        vkr_device_alloc_queue_sync dev m c f ri fid =
          some ({ sync with device_lost := false, flags := f, ring_idx := ri, fence_id := fid },
                { dev with free_syncs := rest })) ∧
    (dev.free_syncs = [] → m = true → c = true →
        vkr_device_alloc_queue_sync dev m c f ri fid =
          some ({ fence := dev.next_fence, device_lost := false, flags := f,
                  ring_idx := ri, fence_id := fid },
                { dev with
                  next_fence := dev.next_fence + 1
                  fence_alloc_count := dev.fence_alloc_count + 1 })) ∧
    (dev.free_syncs = [] → (m = false ∨ c = false) →
        vkr_device_alloc_queue_sync dev m c f ri fid = none) := by
  refine ⟨?_, ?_, ?_⟩
  · intro sync rest hl
    unfold vkr_device_alloc_queue_sync
    rw [hl]
  · intro hl hm hc
    unfold vkr_device_alloc_queue_sync
    rw [hl, hm, hc]
    simp
  · intro hl hmc
    unfold vkr_device_alloc_queue_sync
    rw [hl]
    rcases hmc with hm | hc
    · simp [hm]
    · simp [hc]

/-- Witness for C4: a pool hit, a pool miss with a healthy driver, and the
two failure modes, at concrete inputs. -/
theorem vkr_alloc_queue_sync_spec_witness :
    vkr_device_alloc_queue_sync
        { free_syncs := [{ fence := 5, device_lost := true, flags := 9,
                           ring_idx := 9, fence_id := 9 }],
          next_fence := 6, fence_alloc_count := 1 } false false 1 2 3 =
      some ({ fence := 5, device_lost := false, flags := 1, ring_idx := 2, fence_id := 3 },
            { free_syncs := [], next_fence := 6, fence_alloc_count := 1 }) ∧
    vkr_device_alloc_queue_sync
        { free_syncs := [], next_fence := 6, fence_alloc_count := 1 } true true 1 2 3 =
      some ({ fence := 6, device_lost := false, flags := 1, ring_idx := 2, fence_id := 3 },
            { free_syncs := [], next_fence := 7, fence_alloc_count := 2 }) ∧
    vkr_device_alloc_queue_sync
        { free_syncs := [], next_fence := 6, fence_alloc_count := 1 } false true 1 2 3 =
      none ∧
    vkr_device_alloc_queue_sync
        { free_syncs := [], next_fence := 6, fence_alloc_count := 1 } true false 1 2 3 =
      none := by
  refine ⟨?_, ?_, ?_, ?_⟩
  · exact ((vkr_alloc_queue_sync_spec
      { free_syncs := [{ fence := 5, device_lost := true, flags := 9,
                         ring_idx := 9, fence_id := 9 }],
        next_fence := 6, fence_alloc_count := 1 } false false 1 2 3).1
      { fence := 5, device_lost := true, flags := 9, ring_idx := 9, fence_id := 9 }
      [] rfl).trans (by decide)
  · exact ((vkr_alloc_queue_sync_spec
      { free_syncs := [], next_fence := 6, fence_alloc_count := 1 }
      true true 1 2 3).2.1 rfl rfl rfl).trans (by decide)
  · exact (vkr_alloc_queue_sync_spec
      { free_syncs := [], next_fence := 6, fence_alloc_count := 1 }
      false true 1 2 3).2.2 rfl (Or.inl rfl)
  · exact (vkr_alloc_queue_sync_spec
      { free_syncs := [], next_fence := 6, fence_alloc_count := 1 }
      true false 1 2 3).2.2 rfl (Or.inr rfl)

/-- C5: a submission for which QueueSubmit reports neither VK_SUCCESS nor
VK_ERROR_DEVICE_LOST returns failure; the acquired object goes back to the
tail of the free pool, the in-flight registry is untouched, the retirement
log is untouched (no callback ever fires for it) and the submission log
does not record it. -/
theorem vkr_submit_failure_path (st : VkrState) (m c : Bool) (r : VkResult)
    (f ri fid : Nat) (sync : QueueSync) (dev2 : DevState)
    (hr1 : r ≠ VkResult.success) (hr2 : r ≠ VkResult.errorDeviceLost)
    (halloc : vkr_device_alloc_queue_sync st.dev m c f ri fid = some (sync, dev2)) :
    (vkr_queue_sync_submit st m c r f ri fid).1 = false ∧
    (vkr_queue_sync_submit st m c r f ri fid).2.queue = st.queue ∧
    (vkr_queue_sync_submit st m c r f ri fid).2.retired = st.retired ∧
    (vkr_queue_sync_submit st m c r f ri fid).2.submitted = st.submitted ∧
    (vkr_queue_sync_submit st m c r f ri fid).2.dev.free_syncs =
      dev2.free_syncs ++ [sync] := by
  rw [submit_other_fail_eq st m c r f ri fid sync dev2 hr1 hr2 halloc]
  simp [vkr_device_free_queue_sync]

/-- Witness for C5 at a concrete failed submission. -/
theorem vkr_submit_failure_path_witness :
    (vkr_queue_sync_submit initState true true (VkResult.otherError (-4)) 0 1 9).1 = false ∧
    (vkr_queue_sync_submit initState true true
        (VkResult.otherError (-4)) 0 1 9).2.queue.pending_syncs = [] ∧
    (vkr_queue_sync_submit initState true true
        (VkResult.otherError (-4)) 0 1 9).2.dev.free_syncs =
      [{ fence := 0, device_lost := false, flags := 0, ring_idx := 1, fence_id := 9 }] := by
  obtain ⟨h1, h2, _, _, h5⟩ := vkr_submit_failure_path initState true true
    (VkResult.otherError (-4)) 0 1 9
    { fence := 0, device_lost := false, flags := 0, ring_idx := 1, fence_id := 9 }
    { free_syncs := [], next_fence := 1, fence_alloc_count := 1 }
    (by decide) (by decide) (by decide)
  refine ⟨h1, ?_, by simpa using h5⟩
  rw [h2]
  rfl

/-- C8: when the object at the front of the registry is not device_lost
and no join is pending, the worker waits on its fence with the fixed
3-second timeout (3000000000 ns); a VK_TIMEOUT outcome leaves the state
completely unchanged (same front object, nothing removed, nothing retired,
no error surfaced), and the object is removed and retired exactly when the
wait returns a non-timeout result. -/
theorem vkr_worker_bounded_wait (st : VkrState) (w : VkResult)
    (sync : QueueSync) (rest : List QueueSync)
    (hp : st.queue.pending_syncs = sync :: rest) (hj : st.queue.join = false)
    (hd : sync.device_lost = false) :
    sync_wait_timeout_ns = 3000000000 ∧
    (vkr_queue_thread_step st w).2.1 = some sync_wait_timeout_ns ∧
    (w = VkResult.timeout →
        vkr_queue_thread_step st w = (WorkerObs.timedOut, some sync_wait_timeout_ns, st)) ∧
    (w ≠ VkResult.timeout →
        vkr_queue_thread_step st w =
          (WorkerObs.retiredOne sync.ring_idx sync.fence_id, some sync_wait_timeout_ns,
           { st with
             queue := { st.queue with pending_syncs := rest }
             retired := st.retired ++ [(sync.ring_idx, sync.fence_id)]
             dev := vkr_device_free_queue_sync st.dev sync })) := by
  refine ⟨rfl, ?_, ?_, ?_⟩
  · by_cases hw : w = VkResult.timeout
    · rw [hw, thread_step_wait_timeout st sync rest hp hj hd]
    · rw [thread_step_wait_done st w sync rest hp hj hd hw]
  · intro hw
    rw [hw, thread_step_wait_timeout st sync rest hp hj hd]
  · intro hw
    rw [thread_step_wait_done st w sync rest hp hj hd hw]

/-- Witness for C8 at a concrete in-flight state, with a timed-out wait
and a successful wait. -/
theorem vkr_worker_bounded_wait_witness :
    vkr_queue_thread_step
        { dev := { free_syncs := [], next_fence := 1, fence_alloc_count := 1 },
          queue := { pending_syncs :=
                       [{ fence := 0, device_lost := false, flags := 0,
                          ring_idx := 1, fence_id := 4 }],
                     join := false, ring_idx := 0, id := 0 },
          retired := [], submitted := [(1, 4)] } VkResult.timeout =
      (WorkerObs.timedOut, some 3000000000,
       { dev := { free_syncs := [], next_fence := 1, fence_alloc_count := 1 },
         queue := { pending_syncs :=
                      [{ fence := 0, device_lost := false, flags := 0,
                         ring_idx := 1, fence_id := 4 }],
                    join := false, ring_idx := 0, id := 0 },
         retired := [], submitted := [(1, 4)] }) ∧
    (vkr_queue_thread_step
        { dev := { free_syncs := [], next_fence := 1, fence_alloc_count := 1 },
          queue := { pending_syncs :=
                       [{ fence := 0, device_lost := false, flags := 0,
                          ring_idx := 1, fence_id := 4 }],
                     join := false, ring_idx := 0, id := 0 },
          retired := [], submitted := [(1, 4)] } VkResult.success).1 =
      WorkerObs.retiredOne 1 4 := by
  constructor
  · exact ((vkr_worker_bounded_wait _ VkResult.timeout
      { fence := 0, device_lost := false, flags := 0, ring_idx := 1, fence_id := 4 }
      [] rfl rfl rfl).2.2.1 rfl).trans (by rfl)
  · rw [(vkr_worker_bounded_wait _ VkResult.success
      { fence := 0, device_lost := false, flags := 0, ring_idx := 1, fence_id := 4 }
      [] rfl rfl rfl).2.2.2 (by decide)]

theorem retire_foldl_spec (syncs : List QueueSync) (st : VkrState) :
    (syncs.foldl vkr_queue_sync_retire st).retired = st.retired ++ tokensOf syncs ∧
    (syncs.foldl vkr_queue_sync_retire st).dev.free_syncs = st.dev.free_syncs ++ syncs ∧
    (syncs.foldl vkr_queue_sync_retire st).dev.next_fence = st.dev.next_fence ∧
    (syncs.foldl vkr_queue_sync_retire st).dev.fence_alloc_count
        = st.dev.fence_alloc_count ∧
    (syncs.foldl vkr_queue_sync_retire st).queue = st.queue ∧
    (syncs.foldl vkr_queue_sync_retire st).submitted = st.submitted := by
  induction syncs generalizing st with
  | nil => simp [tokensOf]
  | cons s ss ih =>
    obtain ⟨h1, h2, h3, h4, h5, h6⟩ := ih (vkr_queue_sync_retire st s)
    simp only [List.foldl_cons]
    refine ⟨?_, ?_, ?_, ?_, ?_, ?_⟩
    · rw [h1]
      simp [vkr_queue_sync_retire, vkr_device_free_queue_sync, tokensOf, List.append_assoc]
    · rw [h2]
      simp [vkr_queue_sync_retire, vkr_device_free_queue_sync, List.append_assoc]
    · rw [h3]
      simp [vkr_queue_sync_retire, vkr_device_free_queue_sync]
    · rw [h4]
      simp [vkr_queue_sync_retire, vkr_device_free_queue_sync]
    · rw [h5]
      simp [vkr_queue_sync_retire]
    · rw [h6]
      simp [vkr_queue_sync_retire]

/-- C3: destroying a queue after the device is idle requests join, then
drains the registry without any driver wait: with M objects still in the
registry, exactly M completion callbacks fire, in registry order, before
destroy returns; every drained object is back in the device free pool; the
ring-table slot is cleared exactly when the queue was ring-bound; and the
queue memory is freed directly exactly when no guest-visible id was ever
assigned. -/
theorem vkr_queue_destroy_drains (sync_queues : List (Option Nat)) (st : VkrState) :
    (vkr_queue_destroy sync_queues st).st.retired
        = st.retired ++ tokensOf st.queue.pending_syncs ∧
    (vkr_queue_destroy sync_queues st).st.retired.length
        = st.retired.length + st.queue.pending_syncs.length ∧
    (vkr_queue_destroy sync_queues st).st.queue.pending_syncs = [] ∧
    (vkr_queue_destroy sync_queues st).st.queue.join = true ∧
    (vkr_queue_destroy sync_queues st).st.dev.free_syncs
        = st.dev.free_syncs ++ st.queue.pending_syncs ∧
    (vkr_queue_destroy sync_queues st).sync_queues
        = (if st.queue.ring_idx > 0 then sync_queues.set st.queue.ring_idx none
           else sync_queues) ∧
    ((vkr_queue_destroy sync_queues st).freed_directly = true ↔ st.queue.id = 0) := by
  obtain ⟨h1, h2, h3, h4, h5, h6⟩ :=
    retire_foldl_spec st.queue.pending_syncs
      { st with queue := { st.queue with join := true, pending_syncs := [] } }
  refine ⟨?_, ?_, ?_, ?_, ?_, ?_, ?_⟩ <;>
    simp [vkr_queue_destroy, vkr_queue_retire_all_syncs, h1, h2, h3, h4, h5, h6, tokensOf]

/-- C6: the ring-binding branch of the vkGetDeviceQueue2 handler rejects
ring index 0 and any index at or beyond the ring-table size as
stream-fatal, rejects an already claimed slot as stream-fatal leaving the
table (and hence the earlier binding) untouched, and records the binding
(queue ring_idx and table slot) exactly for an unclaimed index in
[1, table size). -/
theorem vkr_bind_ring_spec (ctx : BindCtx) (q : BindQueue) (ringIdx : Nat) :
    ((ringIdx = 0 ∨ ringIdx ≥ ctx.sync_queues.length) →
        vkr_dispatch_vkGetDeviceQueue2_bind ctx q ringIdx =
          ({ ctx with fatal := true }, q)) ∧
    (ringIdx ≠ 0 → ringIdx < ctx.sync_queues.length →
        (ctx.sync_queues.getD ringIdx none).isSome = true →
        vkr_dispatch_vkGetDeviceQueue2_bind ctx q ringIdx =
          ({ ctx with fatal := true }, q)) ∧
    (ringIdx ≠ 0 → ringIdx < ctx.sync_queues.length →
        ctx.sync_queues.getD ringIdx none = none →
        vkr_dispatch_vkGetDeviceQueue2_bind ctx q ringIdx =
          ({ ctx with sync_queues := ctx.sync_queues.set ringIdx (some q.qid) },
           { q with ring_idx := ringIdx })) := by
  refine ⟨?_, ?_, ?_⟩
  · intro h
    unfold vkr_dispatch_vkGetDeviceQueue2_bind
    rw [if_pos h]
  · intro h0 hlt hocc
    unfold vkr_dispatch_vkGetDeviceQueue2_bind
    rw [if_neg (by omega), if_pos hocc]
  · intro h0 hlt hfree
    unfold vkr_dispatch_vkGetDeviceQueue2_bind
    rw [if_neg (by omega), if_neg (by simpa [List.getD] using hfree)]

/-- Witness for C6: index 0 rejected; an index claimed by queue 1 rejected
when queue 2 asks for it, with the table and hence the binding of queue 1
untouched; a free index in range recorded. -/
theorem vkr_bind_ring_spec_witness :
    vkr_dispatch_vkGetDeviceQueue2_bind
        { sync_queues := [none, some 1, none], fatal := false }
        { qid := 2, ring_idx := 0 } 0 =
      ({ sync_queues := [none, some 1, none], fatal := true },
       { qid := 2, ring_idx := 0 }) ∧
    vkr_dispatch_vkGetDeviceQueue2_bind
        { sync_queues := [none, some 1, none], fatal := false }
        { qid := 2, ring_idx := 0 } 3 =
      ({ sync_queues := [none, some 1, none], fatal := true },
       { qid := 2, ring_idx := 0 }) ∧
    vkr_dispatch_vkGetDeviceQueue2_bind
        { sync_queues := [none, some 1, none], fatal := false }
        { qid := 2, ring_idx := 0 } 1 =
      ({ sync_queues := [none, some 1, none], fatal := true },
       { qid := 2, ring_idx := 0 }) ∧
    vkr_dispatch_vkGetDeviceQueue2_bind
        { sync_queues := [none, some 1, none], fatal := false }
        { qid := 2, ring_idx := 0 } 2 =
      ({ sync_queues := [none, some 1, some 2], fatal := false },
       { qid := 2, ring_idx := 2 }) := by
  refine ⟨?_, ?_, ?_, ?_⟩
  · exact ((vkr_bind_ring_spec { sync_queues := [none, some 1, none], fatal := false }
      { qid := 2, ring_idx := 0 } 0).1 (Or.inl rfl)).trans (by decide)
  · exact ((vkr_bind_ring_spec { sync_queues := [none, some 1, none], fatal := false }
      { qid := 2, ring_idx := 0 } 3).1 (Or.inr (by decide))).trans (by decide)
  · exact ((vkr_bind_ring_spec { sync_queues := [none, some 1, none], fatal := false }
      { qid := 2, ring_idx := 0 } 1).2.1 (by decide) (by decide) (by decide)).trans (by decide)
  · exact ((vkr_bind_ring_spec { sync_queues := [none, some 1, none], fatal := false }
      { qid := 2, ring_idx := 0 } 2).2.2 (by decide) (by decide) (by decide)).trans (by decide)

/-- C7: the guest-visible queue id is immutable once set: assigning the
same id again is a no-op; assigning a different id sets the stream-fatal
flag and keeps the stored id; assigning to an unassigned queue records the
id exactly when the context validation accepts it, and otherwise leaves
the queue unassigned without touching the fatal flag. -/
theorem vkr_assign_object_id_spec (validate : Nat → Bool) (fatal : Bool) (cur id : Nat) :
    (cur ≠ 0 → cur = id →
        vkr_queue_assign_object_id validate fatal cur id = (fatal, cur)) ∧
    (cur ≠ 0 → cur ≠ id →
        vkr_queue_assign_object_id validate fatal cur id = (true, cur)) ∧
    (cur = 0 → validate id = true →
        vkr_queue_assign_object_id validate fatal cur id = (fatal, id)) ∧
    (cur = 0 → validate id = false →
        vkr_queue_assign_object_id validate fatal cur id = (fatal, 0)) := by
  refine ⟨?_, ?_, ?_, ?_⟩
  · intro h1 h2
    unfold vkr_queue_assign_object_id
    simp [h1, h2]
  · intro h1 h2
    unfold vkr_queue_assign_object_id
    simp [h1, h2]
  · intro h1 h2
    unfold vkr_queue_assign_object_id
    simp [h1, h2]
  · intro h1 h2
    unfold vkr_queue_assign_object_id
    simp [h1, h2]

/-- Witness for C7 at concrete ids: re-assigning 5 to a queue holding 5 is
a no-op, assigning 6 over 5 is fatal and keeps 5, assigning 5 to an
unassigned queue records it when validation accepts, and leaves the queue
unassigned when validation refuses. -/
theorem vkr_assign_object_id_spec_witness :
    vkr_queue_assign_object_id (fun _ => true) false 5 5 = (false, 5) ∧
    vkr_queue_assign_object_id (fun _ => true) false 5 6 = (true, 5) ∧
    vkr_queue_assign_object_id (fun _ => true) false 0 5 = (false, 5) ∧
    vkr_queue_assign_object_id (fun _ => false) false 0 5 = (false, 0) := by
  refine ⟨?_, ?_, ?_, ?_⟩
  · exact (vkr_assign_object_id_spec (fun _ => true) false 5 5).1 (by decide) rfl
  · exact (vkr_assign_object_id_spec (fun _ => true) false 5 6).2.1 (by decide) (by decide)
  · exact (vkr_assign_object_id_spec (fun _ => true) false 0 5).2.2.1 rfl rfl
  · exact (vkr_assign_object_id_spec (fun _ => false) false 0 5).2.2.2 rfl rfl

theorem cycle_preserves_inv (st : VkrState) (f ri fid : Nat)
    (h1 : st.dev.free_syncs.length = 1) (h2 : st.queue.pending_syncs = [])
    (h3 : st.queue.join = false) :
    (submitRetireCycle st f ri fid).dev.free_syncs.length = 1 ∧
    (submitRetireCycle st f ri fid).queue.pending_syncs = [] ∧
    (submitRetireCycle st f ri fid).queue.join = false ∧
    (submitRetireCycle st f ri fid).dev.fence_alloc_count
        = st.dev.fence_alloc_count := by
  obtain ⟨s, hs⟩ : ∃ s, st.dev.free_syncs = [s] := by
    cases hl : st.dev.free_syncs with
    | nil => rw [hl] at h1; simp at h1
    | cons a t =>
      cases t with
      | nil => exact ⟨a, rfl⟩
      | cons b u => rw [hl] at h1; simp at h1
  have halloc : vkr_device_alloc_queue_sync st.dev true true f ri fid =
      some ({ s with device_lost := false, flags := f, ring_idx := ri, fence_id := fid },
            { st.dev with free_syncs := [] }) := by
    unfold vkr_device_alloc_queue_sync
    rw [hs]
  unfold submitRetireCycle
  rw [submit_success_eq st true true f ri fid _ _ halloc]
  rw [thread_step_wait_done _ VkResult.success
      { s with device_lost := false, flags := f, ring_idx := ri, fence_id := fid } []
      (by simp [h2]) (by simp [h3]) rfl (by decide)]
  refine ⟨?_, ?_, ?_, ?_⟩ <;> simp [vkr_device_free_queue_sync, h3]

theorem runCycles_pool_inv (n : Nat) :
    (runCycles (n + 1)).dev.free_syncs.length = 1 ∧
    (runCycles (n + 1)).queue.pending_syncs = [] ∧
    (runCycles (n + 1)).queue.join = false ∧
    (runCycles (n + 1)).dev.fence_alloc_count = 1 := by
  induction n with
  | zero => decide
  | succ k ih =>
    obtain ⟨h1, h2, h3, h4⟩ := ih
    have h := cycle_preserves_inv (runCycles (k + 1)) 0 0 (k + 1) h1 h2 h3
    exact ⟨h.1, h.2.1, h.2.2.1, h.2.2.2.trans h4⟩

/-- C9: across n sequential submit/retire cycles on one queue, each
submission issued only after the previous object has been retired, the
native-fence allocation count stays at 1 for every n at least 1: only the
first acquire creates a fence and every later acquire recycles the pooled
object. -/
theorem vkr_pool_alloc_once (n : Nat) (h : 1 ≤ n) :
    (runCycles n).dev.fence_alloc_count = 1 := by
  obtain ⟨k, rfl⟩ : ∃ k, n = k + 1 := ⟨n - 1, (Nat.succ_pred_eq_of_pos h).symm⟩
  exact (runCycles_pool_inv k).2.2.2

/-- Witness for C9 at n = 5. -/
theorem vkr_pool_alloc_once_witness :
    1 ≤ 5 ∧ (runCycles 5).dev.fence_alloc_count = 1 :=
  ⟨by decide, vkr_pool_alloc_once 5 (by decide)⟩

/-- C10: the vkQueueWaitIdle handler sets the stream-fatal flag for every
incoming decoder state and invokes zero driver entry points: it never
performs a blocking wait and never leaves the stream valid. -/
theorem vkr_queue_wait_idle_fatal (fatal : Bool) :
    (vkr_dispatch_vkQueueWaitIdle fatal).1 = true ∧
    (vkr_dispatch_vkQueueWaitIdle fatal).2 = 0 :=
  ⟨rfl, rfl⟩

end VkrQueue
